import Mathlib

/- Verification of the FluxOps repository: a training pipeline
   (src/ml_pipeline/train_model.py, inference.py) and a serving layer
   (src/function_app/function_app.py) with an in-process model cache.
   Python exceptions are embedded as an explicit error type; the opaque
   trained classifier is embedded as a structure of fallible functions;
   real-valued features and probabilities are embedded as rationals. -/

/-- Python exception kinds relevant to the repository: the predict handler
    distinguishes ValueError (caught first, answered 400) from every other
    exception (answered 500). -/
inductive PyErr where
  | valueError (msg : String)
  | typeError (msg : String)
  | attributeError (msg : String)
  | resourceNotFound (msg : String)
  | unpicklingError (msg : String)
  | other (msg : String)
deriving DecidableEq

/-- True exactly for the ValueError constructor, mirroring Python
    `except ValueError` dispatch. -/
def PyErr.isValueError : PyErr → Bool
  | .valueError _ => true
  | _ => false

/-- The opaque trained classifier artifact: per-row `predict` and
    `predict_proba`, both of which may raise (sklearn is external, so the
    functions themselves are arbitrary; the repository only calls them). -/
structure ModelArtifact where
  predict : List ℚ → Except PyErr Int
  predict_proba : List ℚ → Except PyErr (ℚ × ℚ)

/-- Modelled from the spec: the model-artifact contract of section 3 (the
    classifier is produced by the external sklearn library, not by code under
    src/): `predict` returns a label in the training classes 0/1, and
    `predict_proba` returns a two-class distribution with p0 + p1 = 1. -/
def ArtifactContract (m : ModelArtifact) : Prop :=
  (∀ xs r, m.predict xs = .ok r → r = 0 ∨ r = 1) ∧
  (∀ xs p q, m.predict_proba xs = .ok (p, q) → p + q = 1)

namespace FunctionApp

/-- A JSON-decoded Python value, as far as the predict handler inspects one:
    the `features` field of the request body may be absent or any of these. -/
inductive PyVal where
  | vnone
  | vbool (b : Bool)
  | vint (n : Int)
  | vfloat (q : ℚ)
  | vstr (s : String)
  | vlist (xs : List PyVal)

/-- Python truthiness, used by `if not features` in the handler. -/
def truthy : PyVal → Bool
  | .vnone => false
  | .vbool b => b
  | .vint n => if n = 0 then false else true
  | .vfloat q => if q = 0 then false else true
  | .vstr s => if s = "" then false else true
  | .vlist xs => !xs.isEmpty

/-- Python `len(v)`: defined for strings and lists, raises TypeError on the
    other values the handler can receive. -/
def pyLen : PyVal → Except PyErr Nat
  | .vstr s => .ok s.length
  | .vlist xs => .ok xs.length
  | _ => .error (.typeError "object has no len")

/-- Numeric coercion of one feature entry, as `np.array` plus the sklearn
    numeric check perform it: ints, floats and bools coerce, anything else
    raises ValueError at inference time. -/
def toFloatQ : PyVal → Except PyErr ℚ
  | .vint n => .ok (n : ℚ)
  | .vfloat q => .ok q
  | .vbool b => .ok (if b then 1 else 0)
  | _ => .error (.valueError "could not convert string to float")

/-- Conversion of the features value to a numeric vector
    (`np.array(features).reshape(1, -1)` followed by the model input check). -/
def asFloats : PyVal → Except PyErr (List ℚ)
  | .vlist xs => xs.mapM toFloatQ
  | _ => .error (.valueError "could not convert value to float array")

/-- The JSON responses the predict handler can produce, with their status
    codes: 200 success carrying prediction, class_0 and class_1 probability
    and confidence; 400 validation error; 500 internal error. -/
inductive HttpResponse where
  | success (prediction : Int) (class_0 class_1 confidence : ℚ)
  | badRequest (msg : String)
  | internalError (msg : String)
deriving DecidableEq

/-- Status code of a response. -/
def HttpResponse.status : HttpResponse → Nat
  | .success _ _ _ _ => 200
  | .badRequest _ => 400
  | .internalError _ => 500

/-- The two except-clauses at the end of the predict handler:
    ValueError is answered 400 with the message, every other exception is
    answered 500 with a generic message. -/
def errResponse : PyErr → HttpResponse
  | .valueError msg => .badRequest ("Invalid input: " ++ msg)
  | _ => .internalError "Internal server error"

/-- Modelled from the spec: the opaque serialized model blob (section 6 model
    file format; serialization is done by the external joblib library). A
    stored blob either deserializes back to its artifact, or joblib.load
    raises an unpickling error on corrupt bytes. -/
inductive Blob where
  | valid (m : ModelArtifact)
  | corrupt (msg : String)

/-- joblib.load applied to downloaded blob bytes. -/
def Blob.deserialize : Blob → Except PyErr ModelArtifact
  | .valid m => .ok m
  | .corrupt msg => .error (.unpicklingError msg)

/-- The environment the loader consults: the STORAGE_CONNECTION_STRING
    setting (absent, or a string which may be empty) and the content of the
    models/model_v1.pkl blob (absent when the blob is missing). -/
structure Env where
  connection_string : Option String
  blob : Option Blob

/-- The try-block of load_model_from_blob past the cache check: read the
    connection string (ValueError when unset or empty, since
    `if not connection_string` treats both alike), download the blob
    (the storage client raises ResourceNotFound when it is missing) and
    deserialize it. -/
def load_fresh (env : Env) : Except PyErr ModelArtifact :=
  match env.connection_string with
  | none => .error (.valueError "STORAGE_CONNECTION_STRING not set")
  | some cs =>
    if cs = "" then .error (.valueError "STORAGE_CONNECTION_STRING not set")
    else
      match env.blob with
      | none => .error (.resourceNotFound "The specified blob does not exist")
      | some b => b.deserialize

/-- Cache content after a fresh load: the loaded model on success; on
    failure the assignment `_cached_model = ...` was never reached, so the
    slot stays empty. -/
def cacheOf : Except PyErr ModelArtifact → Option ModelArtifact
  | .ok m => some m
  | .error _ => none

/-- load_model_from_blob: return the cached model when present, otherwise
    perform the fresh load and cache the result on success. Returns the
    outcome together with the cache slot after the call. -/
def load_model_from_blob (env : Env) (cache : Option ModelArtifact) :
    Except PyErr ModelArtifact × Option ModelArtifact :=
  match cache with
  | some m => (.ok m, some m)
  | none => (load_fresh env, cacheOf (load_fresh env))

/-- The blob-trigger invalidation hook model_updated: clears the cache slot
    unconditionally. -/
def model_updated (_cache : Option ModelArtifact) : Option ModelArtifact :=
  none

/-- The predict endpoint handler. Input: the parse outcome of the request
    body (get_json may raise) giving the optional features value, the
    environment and the cache slot. Output: the response, the cache slot
    after the request, and whether control reached the model-load call. -/
def predict (env : Env) (cache : Option ModelArtifact)
    (body : Except PyErr (Option PyVal)) :
    HttpResponse × Option ModelArtifact × Bool :=
  match body with
  | .error e => (errResponse e, cache, false)
  | .ok featuresOpt =>
    let features := featuresOpt.getD PyVal.vnone
    if truthy features then
      match pyLen features with
      | .error e => (errResponse e, cache, false)
      | .ok n =>
        if n ≠ 10 then
          (.badRequest "Expected 10 features", cache, false)
        else
          match load_model_from_blob env cache with
          | (.error e, c2) => (errResponse e, c2, true)
          | (.ok m, c2) =>
            match asFloats features with
            | .error e => (errResponse e, c2, true)
            | .ok xs =>
              match m.predict xs with
              | .error e => (errResponse e, c2, true)
              | .ok pr =>
                match m.predict_proba xs with
                | .error e => (errResponse e, c2, true)
                | .ok p =>
                  (.success pr p.1 p.2 (max p.1 p.2), c2, true)
    else
      (.badRequest "Missing features in request body", cache, false)

end FunctionApp

namespace Pipeline

/-- The numpy global PRNG state: the seed last set and the position in that
    seed's sample stream. -/
structure RNG where
  seed : Nat
  pos : Nat

/-- np.random.seed(s): reset the global stream to the start of seed s,
    discarding the previous state. -/
def np_seed (s : Nat) (_rng : RNG) : RNG :=
  ⟨s, 0⟩

/-- np.random.randn(rows, cols) over an abstract sample stream
    `normal seed idx` (numpy is external; given a seed the stream is a fixed
    function of the position): fills a rows-by-cols matrix in row-major
    order and advances the state. -/
def randn (normal : Nat → Nat → ℚ) (rng : RNG) (rows cols : Nat) :
    List (List ℚ) × RNG :=
  ((List.range rows).map fun i =>
      (List.range cols).map fun j => normal rng.seed (rng.pos + (i * cols + j)),
   ⟨rng.seed, rng.pos + rows * cols⟩)

/-- One row of the generated DataFrame: ten features and the target label. -/
structure Row where
  features : List ℚ
  target : Nat
deriving DecidableEq

/-- generate_sample_data: seed the PRNG with 42, draw an n-by-10 standard
    normal matrix, and label each row 1 when its first two features sum to a
    positive value, else 0. -/
def generate_sample_data (normal : Nat → Nat → ℚ) (rng : RNG) (n_samples : Nat) :
    List Row × RNG :=
  let rng1 := np_seed 42 rng
  let p := randn normal rng1 n_samples 10
  (p.1.map fun xs => ⟨xs, if 0 < xs.getD 0 0 + xs.getD 1 0 then 1 else 0⟩, p.2)

/-- The metrics report assembled by evaluate_model: accuracy, the
    classification report (an external sklearn structure, embedded as a
    key-value record), the confusion matrix and a timestamp. -/
structure Metrics where
  accuracy : ℚ
  classification_report : List (String × ℚ)
  confusion_matrix : List (List Nat)
  timestamp : String
deriving DecidableEq

/-- The MLPipeline object state: the two output directories, the trained
    model slot and the metrics slot (both initially empty). -/
structure MLPipeline where
  model_dir : String
  log_dir : String
  model : Option ModelArtifact
  metrics : Option Metrics

/-- Modelled from the spec: RandomForestClassifier.fit of the external
    sklearn library (section 4.2 trainer contract): fails when the feature
    matrix and label vector lengths mismatch, fails when fewer than two
    distinct classes are present, and otherwise produces the fitted
    artifact, here an abstract function `rf_model` of the hyperparameters
    and the training data. -/
def sklearn_fit (rf_model : Nat → Nat → Nat → List (List ℚ) → List Nat → ModelArtifact)
    (n_estimators max_depth random_state : Nat)
    (X : List (List ℚ)) (y : List Nat) : Except PyErr ModelArtifact :=
  if X.length ≠ y.length then
    .error (.valueError "Found input variables with inconsistent numbers of samples")
  else if y.dedup.length < 2 then
    .error (.valueError "The data contains only one class")
  else
    .ok (rf_model n_estimators max_depth random_state X y)

/-- train_model: fit a random forest with the given ensemble size and depth,
    random_state 42, store it in the pipeline model slot and return it. -/
def train_model (rf_model : Nat → Nat → Nat → List (List ℚ) → List Nat → ModelArtifact)
    (pl : MLPipeline) (X : List (List ℚ)) (y : List Nat)
    (n_estimators max_depth : Nat) : Except PyErr (ModelArtifact × MLPipeline) :=
  match sklearn_fit rf_model n_estimators max_depth 42 X y with
  | .error e => .error e
  | .ok m => .ok (m, ⟨pl.model_dir, pl.log_dir, some m, pl.metrics⟩)

/-- sklearn accuracy_score: fraction of positions where prediction equals
    the true label. -/
def accuracy_score (ytrue : List Nat) (ypred : List Int) : ℚ :=
  (((ytrue.zip ypred).countP fun p => (p.1 : Int) == p.2 : Nat) : ℚ) /
    ((ytrue.length : Nat) : ℚ)

/-- sklearn confusion_matrix over the binary classes 0 and 1: entry (t, p)
    counts samples of true class t predicted as p. -/
def confusion_matrix (ytrue : List Nat) (ypred : List Int) : List (List Nat) :=
  let pairs := ytrue.zip ypred
  let cnt := fun (t : Nat) (p : Int) => pairs.countP fun q => q.1 == t && q.2 == p
  [[cnt 0 0, cnt 0 1], [cnt 1 0, cnt 1 1]]

/-- evaluate_model: predict on the held-out matrix with the stored model
    (an AttributeError if the model slot is empty — `self.model.predict` on
    None), assemble the metrics record with a capture timestamp (`clsrep`
    embeds the external sklearn classification_report, `now` the wall
    clock), and store it in the metrics slot. -/
def evaluate_model (clsrep : List Nat → List Int → List (String × ℚ)) (now : String)
    (pl : MLPipeline) (Xte : List (List ℚ)) (yte : List Nat) :
    Except PyErr (Metrics × MLPipeline) :=
  match pl.model with
  | none => .error (.attributeError "NoneType object has no attribute predict")
  | some m =>
    match Xte.mapM m.predict with
    | .error e => .error e
    | .ok ypred =>
      let mt : Metrics :=
        ⟨accuracy_score yte ypred, clsrep yte ypred, confusion_matrix yte ypred, now⟩
      .ok (mt, ⟨pl.model_dir, pl.log_dir, pl.model, some mt⟩)

/-- Content of a file written by the pipeline: a pickle of whatever object
    the model slot held (possibly None — save_model does not check), or the
    JSON metrics record. -/
inductive FileContent where
  | pickle (o : Option ModelArtifact)
  | jsonData (m : Option Metrics)

/-- The local filesystem as a map from paths to file contents. -/
def FS : Type :=
  String → Option FileContent

/-- Writing a file, overwriting any existing content at the path. -/
def fsWrite (fs : FS) (p : String) (c : FileContent) : FS :=
  fun q => if q = p then some c else fs q

/-- save_model: joblib.dump the model slot to model_dir/filename and return
    that path. -/
def save_model (pl : MLPipeline) (fs : FS) (filename : String) : String × FS :=
  let model_path := pl.model_dir ++ "/" ++ filename
  (model_path, fsWrite fs model_path (.pickle pl.model))

/-- save_metrics: json.dump the metrics slot to log_dir/filename and return
    that path. -/
def save_metrics (pl : MLPipeline) (fs : FS) (filename : String) : String × FS :=
  let metrics_path := pl.log_dir ++ "/" ++ filename
  (metrics_path, fsWrite fs metrics_path (.jsonData pl.metrics))

/-- The pipeline steps, in the order run executes them. -/
inductive Step where
  | generate
  | splitData
  | train
  | evaluate
  | saveModel
  | saveMetrics
deriving DecidableEq

/-- The dict run returns on success. -/
structure RunResult where
  model_path : String
  metrics_path : String
  metrics : Metrics
deriving DecidableEq

/-- Everything observable about one run call: its outcome, the filesystem
    and pipeline state after it, and the steps control flow reached. -/
structure RunOutcome where
  result : Except PyErr RunResult
  fs : FS
  pl : MLPipeline
  trace : List Step

/-- The generated DataFrame of run (N = 1000). -/
def pipelineData (normal : Nat → Nat → ℚ) (rng : RNG) : List Row :=
  (generate_sample_data normal rng 1000).1

/-- run's X: the DataFrame without the target column. -/
def pipelineX (normal : Nat → Nat → ℚ) (rng : RNG) : List (List ℚ) :=
  (pipelineData normal rng).map Row.features

/-- run's y: the target column. -/
def pipelineY (normal : Nat → Nat → ℚ) (rng : RNG) : List Nat :=
  (pipelineData normal rng).map Row.target

/-- run: generate 1000 samples, split them with the external
    train_test_split (`tts`, called with test_size 1/5, random_state 42 and
    stratify on y), train with 100 estimators of depth 10, evaluate on the
    held-out split, save the model then the metrics, and return the two
    paths plus the metrics report. An exception at any step propagates and
    skips every later step. -/
def run (normal : Nat → Nat → ℚ)
    (tts : List (List ℚ) → List Nat → ℚ → Nat → Bool →
      Except PyErr (List (List ℚ) × List (List ℚ) × List Nat × List Nat))
    (rf_model : Nat → Nat → Nat → List (List ℚ) → List Nat → ModelArtifact)
    (clsrep : List Nat → List Int → List (String × ℚ)) (now : String)
    (pl : MLPipeline) (fs : FS) (rng : RNG) : RunOutcome :=
  match tts (pipelineX normal rng) (pipelineY normal rng) (1/5) 42 true with
  | .error e => ⟨.error e, fs, pl, [.generate, .splitData]⟩
  | .ok (Xtr, Xte, ytr, yte) =>
    match train_model rf_model pl Xtr ytr 100 10 with
    | .error e => ⟨.error e, fs, pl, [.generate, .splitData, .train]⟩
    | .ok (_m, pl1) =>
      match evaluate_model clsrep now pl1 Xte yte with
      | .error e => ⟨.error e, fs, pl1, [.generate, .splitData, .train, .evaluate]⟩
      | .ok (mt, pl2) =>
        let sm := save_model pl2 fs "model.pkl"
        let sx := save_metrics pl2 sm.2 "metrics.json"
        ⟨.ok ⟨sm.1, sx.1, mt⟩, sx.2, pl2,
         [.generate, .splitData, .train, .evaluate, .saveModel, .saveMetrics]⟩

/-- joblib.load of a path: FileNotFoundError when the path is absent, the
    pickled object when it holds a pickle, an unpickling error otherwise. -/
def joblib_load (fs : FS) (path : String) : Except PyErr (Option ModelArtifact) :=
  match fs path with
  | none => .error (.other "FileNotFoundError")
  | some (.pickle o) => .ok o
  | some (.jsonData _) => .error (.unpicklingError "invalid pickle data")

/-- The ModelInference object: the path it was given and its model slot. -/
structure ModelInference where
  model_path : String
  model : Option ModelArtifact

/-- ModelInference.load_model: joblib.load the path into the model slot,
    propagating any exception. -/
def ModelInference.load_model (fs : FS) (mi : ModelInference) :
    Except PyErr ModelInference :=
  match joblib_load fs mi.model_path with
  | .error e => .error e
  | .ok o => .ok ⟨mi.model_path, o⟩

/-- The ModelInference constructor: store the path, set the model slot to
    None, then eagerly call load_model (whose exceptions propagate out of
    construction). -/
def ModelInference.init (fs : FS) (model_path : String) :
    Except PyErr ModelInference :=
  ModelInference.load_model fs ⟨model_path, none⟩

/-- The batch result dict of ModelInference.predict. -/
structure PredResult where
  predictions : List Int
  probabilities : List (ℚ × ℚ)

/-- The model-present path of ModelInference.predict: run the artifact
    predict and predict_proba over the rows. -/
def predictWithModel (m : ModelArtifact) (X : List (List ℚ)) :
    Except PyErr PredResult :=
  match X.mapM m.predict with
  | .error e => .error e
  | .ok ps =>
    match X.mapM m.predict_proba with
    | .error e => .error e
    | .ok prs => .ok ⟨ps, prs⟩

/-- ModelInference.predict: raise ValueError when the model slot is None,
    otherwise predict with the stored model. -/
def ModelInference.predict (mi : ModelInference) (X : List (List ℚ)) :
    Except PyErr PredResult :=
  match mi.model with
  | none => .error (.valueError "Model not loaded")
  | some m => predictWithModel m X

/-- ModelInference.predict_single: predict on a one-row batch and project
    the first entries. -/
def ModelInference.predict_single (mi : ModelInference) (features : List ℚ) :
    Except PyErr (Int × (ℚ × ℚ)) :=
  match mi.predict [features] with
  | .error e => .error e
  | .ok r =>
    match r.predictions, r.probabilities with
    | p :: _, q :: _ => .ok (p, q)
    | _, _ => .error (.other "IndexError")

end Pipeline

/-- A concrete artifact used to instantiate theorems on closed inputs. -/
def demoArtifact : ModelArtifact :=
  ⟨fun _ => .ok 1, fun _ => .ok (1/4, 3/4)⟩

/-- A concrete fitted-model family used to instantiate the trainer. -/
def demoRF : Nat → Nat → Nat → List (List ℚ) → List Nat → ModelArtifact :=
  fun _ _ _ _ _ => ⟨fun _ => .ok 0, fun _ => .ok (1, 0)⟩

/-- A concrete sample stream used to instantiate the data generator. -/
def demoNormal : Nat → Nat → ℚ :=
  fun _ k => (k : ℚ)

/-- A concrete train-test split used to instantiate the pipeline run: two
    training rows of the two classes and an empty held-out split. -/
def demoTTS : List (List ℚ) → List Nat → ℚ → Nat → Bool →
    Except PyErr (List (List ℚ) × List (List ℚ) × List Nat × List Nat) :=
  fun _ _ _ _ _ => .ok ([[0], [0]], [], [0, 1], [])

/-- A concrete classification report used to instantiate the evaluator. -/
def demoClsrep : List Nat → List Int → List (String × ℚ) :=
  fun _ _ => []

/-- C2: for every sample count, generate_sample_data produces exactly that
    many rows, each holding 10 features with target 1 exactly when the sum
    of the first two features is positive and 0 otherwise, and the output
    rows do not depend on the incoming PRNG state (the fixed seed 42 makes
    two calls with the same count identical). -/
theorem C2_generate_contract (normal : Nat → Nat → ℚ) (n : Nat)
    (rng rng2 : Pipeline.RNG) :
    (Pipeline.generate_sample_data normal rng n).1.length = n
    ∧ (∀ r, r ∈ (Pipeline.generate_sample_data normal rng n).1 →
        r.features.length = 10 ∧
        r.target = if 0 < r.features.getD 0 0 + r.features.getD 1 0 then 1 else 0)
    ∧ (Pipeline.generate_sample_data normal rng n).1
        = (Pipeline.generate_sample_data normal rng2 n).1 := by
  refine ⟨?_, ?_, rfl⟩
  · simp [Pipeline.generate_sample_data, Pipeline.randn]
  · intro r hr
    simp only [Pipeline.generate_sample_data, Pipeline.randn, List.mem_map] at hr
    obtain ⟨xs, ⟨i, _hi, rfl⟩, rfl⟩ := hr
    exact ⟨by simp, rfl⟩

/-- C2 witness: the data generator at sample stream demoNormal, count 1 and
    an arbitrary starting PRNG state produces the row with features 0..9 and
    target 1, and that row satisfies the width and label properties. -/
theorem C2_generate_contract_witness :
    (⟨[0, 1, 2, 3, 4, 5, 6, 7, 8, 9], 1⟩ : Pipeline.Row).features.length = 10 ∧
    (⟨[0, 1, 2, 3, 4, 5, 6, 7, 8, 9], 1⟩ : Pipeline.Row).target
      = if 0 < (⟨[0, 1, 2, 3, 4, 5, 6, 7, 8, 9], 1⟩ : Pipeline.Row).features.getD 0 0
            + (⟨[0, 1, 2, 3, 4, 5, 6, 7, 8, 9], 1⟩ : Pipeline.Row).features.getD 1 0
        then 1 else 0 :=
  (C2_generate_contract demoNormal 1 ⟨7, 3⟩ ⟨0, 0⟩).2.1
    ⟨[0, 1, 2, 3, 4, 5, 6, 7, 8, 9], 1⟩
    (by
      have h : (Pipeline.generate_sample_data demoNormal ⟨7, 3⟩ 1).1
          = [⟨[0, 1, 2, 3, 4, 5, 6, 7, 8, 9], 1⟩] := by
        simp [Pipeline.generate_sample_data, Pipeline.randn, Pipeline.np_seed,
          demoNormal, List.range_succ]
      rw [h]
      exact List.mem_singleton_self _)

/-- C3: a loader call that returned a model leaves the cache holding exactly
    that model, so a second call — against any environment, hence without
    touching storage — returns the same instance; the invalidation hook
    clears the cache unconditionally; and a loader call on the cleared cache
    is exactly the fresh load from storage. -/
theorem C3_cache_contract :
    (∀ env c m c2, FunctionApp.load_model_from_blob env c = (.ok m, c2) →
        ∀ env2, FunctionApp.load_model_from_blob env2 c2 = (.ok m, c2))
    ∧ (∀ c, FunctionApp.model_updated c = none)
    ∧ (∀ env c, FunctionApp.load_model_from_blob env (FunctionApp.model_updated c)
        = (FunctionApp.load_fresh env, FunctionApp.cacheOf (FunctionApp.load_fresh env))) := by
  refine ⟨?_, fun _ => rfl, fun _ _ => rfl⟩
  intro env c m c2 h env2
  cases c with
  | some m0 =>
    have h1 : Except.ok (ε := PyErr) m0 = .ok m := congrArg Prod.fst h
    have h2 : some m0 = c2 := congrArg Prod.snd h
    cases h1
    cases h2
    rfl
  | none =>
    have h1 : FunctionApp.load_fresh env = .ok m := congrArg Prod.fst h
    have h2 : FunctionApp.cacheOf (FunctionApp.load_fresh env) = c2 :=
      congrArg Prod.snd h
    rw [h1] at h2
    cases h2
    rfl

/-- C3 witness: with the cache holding demoArtifact, invalidation clears it
    and a repeated loader call returns the same cached instance without
    consulting the (here empty) environment. -/
theorem C3_cache_contract_witness :
    FunctionApp.model_updated (some demoArtifact) = none ∧
    FunctionApp.load_model_from_blob ⟨none, none⟩ (some demoArtifact)
      = (.ok demoArtifact, some demoArtifact) :=
  ⟨C3_cache_contract.2.1 (some demoArtifact),
   C3_cache_contract.1 ⟨some "cs", none⟩ (some demoArtifact) demoArtifact
     (some demoArtifact) rfl ⟨none, none⟩⟩

/-- C7: when a loader call on an empty cache fails, the cache is still empty
    afterwards (the failure is not cached), and any subsequent call on the
    empty cache performs the full fresh load from storage again. -/
theorem C7_load_failure_not_cached (env : FunctionApp.Env) (e : PyErr)
    (c2 : Option ModelArtifact)
    (h : FunctionApp.load_model_from_blob env none = (.error e, c2)) :
    c2 = none
    ∧ ∀ env2, FunctionApp.load_model_from_blob env2 none
        = (FunctionApp.load_fresh env2, FunctionApp.cacheOf (FunctionApp.load_fresh env2)) := by
  refine ⟨?_, fun _ => rfl⟩
  have h1 : FunctionApp.load_fresh env = .error e := congrArg Prod.fst h
  have h2 : FunctionApp.cacheOf (FunctionApp.load_fresh env) = c2 :=
    congrArg Prod.snd h
  rw [h1] at h2
  exact h2.symm

/-- C7 witness: with the connection string unset, the load fails and the
    cache slot is still empty after the call. -/
theorem C7_load_failure_not_cached_witness :
    (FunctionApp.load_model_from_blob ⟨none, none⟩ none).2 = none :=
  (C7_load_failure_not_cached ⟨none, none⟩
      (.valueError "STORAGE_CONNECTION_STRING not set")
      (FunctionApp.load_model_from_blob ⟨none, none⟩ none).2 rfl).1

/-- C1 counterexample: a request with exactly 10 numeric features while
    STORAGE_CONNECTION_STRING is unset fails during model load, yet the
    handler answers status 400 (the configuration ValueError is caught by
    the validation-error clause), not the internal 500 the claim requires. -/
theorem C1_config_load_failure_is_400 :
    (FunctionApp.predict ⟨none, none⟩ none
        (.ok (some (.vlist (List.replicate 10 (.vint 0)))))).1
      = .badRequest "Invalid input: STORAGE_CONNECTION_STRING not set"
    ∧ ((FunctionApp.predict ⟨none, none⟩ none
        (.ok (some (.vlist (List.replicate 10 (.vint 0)))))).1).status = 400 :=
  ⟨rfl, rfl⟩

/-- C1 amended: for a 10-entry features request, any exception raised during
    model load or inference is answered through the handler's except-clauses:
    a ValueError — including the missing STORAGE_CONNECTION_STRING
    configuration error — is answered as a 400 validation error, and every
    other exception (missing blob, corrupt blob, non-ValueError inference
    faults) as a 500 internal error. -/
theorem C1_predict_error_reporting (env : FunctionApp.Env)
    (cache : Option ModelArtifact) (xs : List FunctionApp.PyVal)
    (hlen : xs.length = 10) :
    (∀ e c2, FunctionApp.load_model_from_blob env cache = (.error e, c2) →
        FunctionApp.predict env cache (.ok (some (.vlist xs)))
          = (FunctionApp.errResponse e, c2, true))
    ∧ (∀ m c2 e, FunctionApp.load_model_from_blob env cache = (.ok m, c2) →
        FunctionApp.asFloats (.vlist xs) = .error e →
        FunctionApp.predict env cache (.ok (some (.vlist xs)))
          = (FunctionApp.errResponse e, c2, true))
    ∧ (∀ m c2 qs e, FunctionApp.load_model_from_blob env cache = (.ok m, c2) →
        FunctionApp.asFloats (.vlist xs) = .ok qs →
        m.predict qs = .error e →
        FunctionApp.predict env cache (.ok (some (.vlist xs)))
          = (FunctionApp.errResponse e, c2, true))
    ∧ (∀ m c2 qs pr e, FunctionApp.load_model_from_blob env cache = (.ok m, c2) →
        FunctionApp.asFloats (.vlist xs) = .ok qs →
        m.predict qs = .ok pr →
        m.predict_proba qs = .error e →
        FunctionApp.predict env cache (.ok (some (.vlist xs)))
          = (FunctionApp.errResponse e, c2, true))
    ∧ (∀ e, (FunctionApp.errResponse e).status
        = if e.isValueError then 400 else 500) := by
  have hne : xs.isEmpty = false := by
    cases xs with
    | nil => simp at hlen
    | cons a l => rfl
  refine ⟨?_, ?_, ?_, ?_, ?_⟩
  · intro e c2 hl
    simp [FunctionApp.predict, FunctionApp.truthy, FunctionApp.pyLen, hne, hlen, hl]
  · intro m c2 e hl hq
    simp [FunctionApp.predict, FunctionApp.truthy, FunctionApp.pyLen, hne, hlen, hl, hq]
  · intro m c2 qs e hl hq hpr
    simp [FunctionApp.predict, FunctionApp.truthy, FunctionApp.pyLen, hne, hlen, hl, hq, hpr]
  · intro m c2 qs pr e hl hq hpr hp
    simp [FunctionApp.predict, FunctionApp.truthy, FunctionApp.pyLen, hne, hlen, hl, hq, hpr, hp]
  · intro e
    cases e <;>
      simp [FunctionApp.errResponse, FunctionApp.HttpResponse.status, PyErr.isValueError]

/-- C1 witness: the missing-configuration load failure at a concrete request,
    answered through the ValueError clause. -/
theorem C1_predict_error_reporting_witness :
    FunctionApp.predict ⟨none, none⟩ none
        (.ok (some (.vlist (List.replicate 10 (.vint 0)))))
      = (FunctionApp.errResponse (.valueError "STORAGE_CONNECTION_STRING not set"),
         none, true) :=
  (C1_predict_error_reporting ⟨none, none⟩ none
      (List.replicate 10 (.vint 0)) (by simp)).1
    (.valueError "STORAGE_CONNECTION_STRING not set") none rfl

/-- C4 counterexample: a features value that is a bare number — truthy,
    and not a list of 10 numeric entries — makes `len(features)` raise
    TypeError, which the generic except-clause answers with status 500, not
    the 400 validation error the claim requires. -/
theorem C4_nonlist_features_is_500 :
    (FunctionApp.predict ⟨none, none⟩ none (.ok (some (.vint 7)))).1
      = .internalError "Internal server error"
    ∧ ((FunctionApp.predict ⟨none, none⟩ none (.ok (some (.vint 7)))).1).status = 500 :=
  ⟨rfl, rfl⟩

/-- C4 amended: a request whose features value is absent or falsy is
    answered 400 missing-features; a truthy features value with a length
    different from 10 is answered 400 expected-10-features; a truthy
    features value with no length raises TypeError and is answered 500. In
    all of these cases the model load is never attempted and the cache is
    unchanged (the response does not depend on the environment at all). -/
theorem C4_validation_contract (env : FunctionApp.Env)
    (cache : Option ModelArtifact) :
    (FunctionApp.predict env cache (.ok none)
        = (.badRequest "Missing features in request body", cache, false))
    ∧ (∀ v, FunctionApp.truthy v = false →
        FunctionApp.predict env cache (.ok (some v))
          = (.badRequest "Missing features in request body", cache, false))
    ∧ (∀ v n, FunctionApp.truthy v = true → FunctionApp.pyLen v = .ok n → n ≠ 10 →
        FunctionApp.predict env cache (.ok (some v))
          = (.badRequest "Expected 10 features", cache, false))
    ∧ (∀ v e, FunctionApp.truthy v = true → FunctionApp.pyLen v = .error e →
        FunctionApp.predict env cache (.ok (some v))
          = (FunctionApp.errResponse e, cache, false)) := by
  refine ⟨rfl, ?_, ?_, ?_⟩
  · intro v hv
    simp [FunctionApp.predict, hv]
  · intro v n hv hn h10
    simp [FunctionApp.predict, hv, hn, h10]
  · intro v e hv hn
    simp [FunctionApp.predict, hv, hn]

/-- C4 witness: a 9-entry features list is answered 400 with no model load
    attempted, against an arbitrary concrete environment. -/
theorem C4_validation_contract_witness :
    FunctionApp.predict ⟨none, none⟩ none
        (.ok (some (.vlist (List.replicate 9 (.vint 0)))))
      = (.badRequest "Expected 10 features", none, false) :=
  (C4_validation_contract ⟨none, none⟩ none).2.2.1
    (.vlist (List.replicate 9 (.vint 0))) 9 rfl rfl (by decide)

/-- C8: a 10-entry numeric request for which load and inference succeed is
    answered 200 with the predicted label, the class_0 and class_1
    probabilities and confidence equal to the maximum of the two; under the
    artifact contract the prediction is 0 or 1 and the probabilities sum
    to 1. -/
theorem C8_success_response (env : FunctionApp.Env) (cache : Option ModelArtifact)
    (xs : List FunctionApp.PyVal) (m : ModelArtifact) (c2 : Option ModelArtifact)
    (qs : List ℚ) (pr : Int) (p q : ℚ)
    (hc : ArtifactContract m)
    (hlen : xs.length = 10)
    (hload : FunctionApp.load_model_from_blob env cache = (.ok m, c2))
    (hq : FunctionApp.asFloats (.vlist xs) = .ok qs)
    (hpr : m.predict qs = .ok pr)
    (hp : m.predict_proba qs = .ok (p, q)) :
    FunctionApp.predict env cache (.ok (some (.vlist xs)))
      = (.success pr p q (max p q), c2, true)
    ∧ (pr = 0 ∨ pr = 1) ∧ p + q = 1 := by
  have hne : xs.isEmpty = false := by
    cases xs with
    | nil => simp at hlen
    | cons a l => rfl
  refine ⟨?_, hc.1 qs pr hpr, hc.2 qs p q hp⟩
  simp [FunctionApp.predict, FunctionApp.truthy, FunctionApp.pyLen, hne, hlen,
    hload, hq, hpr, hp]

/-- C8 witness: a concrete cached model answering a concrete 10-feature
    request with prediction 1, probabilities 1/4 and 3/4, and confidence
    equal to their maximum. -/
theorem C8_success_response_witness :
    FunctionApp.predict ⟨none, none⟩ (some demoArtifact)
        (.ok (some (.vlist (List.replicate 10 (.vint 0)))))
      = (.success 1 (1/4) (3/4) (max (1/4) (3/4)), some demoArtifact, true)
    ∧ ((1 : Int) = 0 ∨ (1 : Int) = 1) ∧ (1/4 : ℚ) + 3/4 = 1 :=
  C8_success_response ⟨none, none⟩ (some demoArtifact)
    (List.replicate 10 (.vint 0)) demoArtifact (some demoArtifact)
    (List.replicate 10 ((0 : Int) : ℚ)) 1 (1/4) (3/4)
    (by
      constructor
      · intro xs r h
        simp [demoArtifact] at h
        exact Or.inr h.symm
      · intro xs p q h
        simp [demoArtifact, Prod.ext_iff] at h
        rw [h.1.symm, h.2.symm]
        norm_num)
    (by simp) rfl rfl rfl rfl

/-- C5: the trainer fails whenever the feature matrix and label vector
    lengths mismatch or the labels contain fewer than two distinct classes,
    and otherwise returns the fitted artifact — which supports predict and
    predict_proba — stored into the pipeline model slot. -/
theorem C5_train_contract
    (rf_model : Nat → Nat → Nat → List (List ℚ) → List Nat → ModelArtifact)
    (pl : Pipeline.MLPipeline) (X : List (List ℚ)) (y : List Nat)
    (ne md : Nat) :
    ((X.length ≠ y.length ∨ y.dedup.length < 2) →
        ∃ e, Pipeline.train_model rf_model pl X y ne md = .error e)
    ∧ (X.length = y.length → 2 ≤ y.dedup.length →
        Pipeline.train_model rf_model pl X y ne md
          = .ok (rf_model ne md 42 X y,
                 ⟨pl.model_dir, pl.log_dir, some (rf_model ne md 42 X y),
                  pl.metrics⟩)) := by
  constructor
  · intro h
    rcases h with h | h
    · exact ⟨.valueError "Found input variables with inconsistent numbers of samples",
        by simp [Pipeline.train_model, Pipeline.sklearn_fit, h]⟩
    · by_cases hxy : X.length = y.length
      · exact ⟨.valueError "The data contains only one class",
          by simp [Pipeline.train_model, Pipeline.sklearn_fit, hxy, h]⟩
      · exact ⟨.valueError "Found input variables with inconsistent numbers of samples",
          by simp [Pipeline.train_model, Pipeline.sklearn_fit, hxy]⟩
  · intro h1 h2
    simp [Pipeline.train_model, Pipeline.sklearn_fit, h1, Nat.not_lt.mpr h2]

/-- C5 witness: training on two rows labelled with the two classes succeeds
    and returns the fitted artifact. -/
theorem C5_train_contract_witness :
    Pipeline.train_model demoRF ⟨"models", "logs", none, none⟩
        [[1], [2]] [0, 1] 3 4
      = .ok (demoRF 3 4 42 [[1], [2]] [0, 1],
             ⟨"models", "logs", some (demoRF 3 4 42 [[1], [2]] [0, 1]), none⟩) :=
  (C5_train_contract demoRF ⟨"models", "logs", none, none⟩
      [[1], [2]] [0, 1] 3 4).2 rfl (by decide)

/-- C6: run generates 1000 samples, splits them with test_size 1/5,
    random_state 42 and stratification, trains with 100 estimators of depth
    10, evaluates on the held-out split, saves the model and then the
    metrics, returning both storage paths plus the metrics report; a failure
    at the split, train or evaluate step propagates that exact error to the
    caller and no later step runs. -/
theorem C6_run_contract (normal : Nat → Nat → ℚ)
    (tts : List (List ℚ) → List Nat → ℚ → Nat → Bool →
      Except PyErr (List (List ℚ) × List (List ℚ) × List Nat × List Nat))
    (rf_model : Nat → Nat → Nat → List (List ℚ) → List Nat → ModelArtifact)
    (clsrep : List Nat → List Int → List (String × ℚ)) (now : String)
    (pl : Pipeline.MLPipeline) (fs : Pipeline.FS) (rng : Pipeline.RNG) :
    (∀ e, tts (Pipeline.pipelineX normal rng) (Pipeline.pipelineY normal rng)
          (1/5) 42 true = .error e →
        Pipeline.run normal tts rf_model clsrep now pl fs rng
          = ⟨.error e, fs, pl, [.generate, .splitData]⟩)
    ∧ (∀ Xtr Xte ytr yte e,
        tts (Pipeline.pipelineX normal rng) (Pipeline.pipelineY normal rng)
          (1/5) 42 true = .ok (Xtr, Xte, ytr, yte) →
        Pipeline.train_model rf_model pl Xtr ytr 100 10 = .error e →
        Pipeline.run normal tts rf_model clsrep now pl fs rng
          = ⟨.error e, fs, pl, [.generate, .splitData, .train]⟩)
    ∧ (∀ Xtr Xte ytr yte m pl1 e,
        tts (Pipeline.pipelineX normal rng) (Pipeline.pipelineY normal rng)
          (1/5) 42 true = .ok (Xtr, Xte, ytr, yte) →
        Pipeline.train_model rf_model pl Xtr ytr 100 10 = .ok (m, pl1) →
        Pipeline.evaluate_model clsrep now pl1 Xte yte = .error e →
        Pipeline.run normal tts rf_model clsrep now pl fs rng
          = ⟨.error e, fs, pl1, [.generate, .splitData, .train, .evaluate]⟩)
    ∧ (∀ Xtr Xte ytr yte m pl1 mt pl2,
        tts (Pipeline.pipelineX normal rng) (Pipeline.pipelineY normal rng)
          (1/5) 42 true = .ok (Xtr, Xte, ytr, yte) →
        Pipeline.train_model rf_model pl Xtr ytr 100 10 = .ok (m, pl1) →
        Pipeline.evaluate_model clsrep now pl1 Xte yte = .ok (mt, pl2) →
        Pipeline.run normal tts rf_model clsrep now pl fs rng
          = ⟨.ok ⟨pl2.model_dir ++ "/" ++ "model.pkl",
                  pl2.log_dir ++ "/" ++ "metrics.json", mt⟩,
             Pipeline.fsWrite
               (Pipeline.fsWrite fs (pl2.model_dir ++ "/" ++ "model.pkl")
                 (.pickle pl2.model))
               (pl2.log_dir ++ "/" ++ "metrics.json") (.jsonData pl2.metrics),
             pl2,
             [.generate, .splitData, .train, .evaluate, .saveModel,
              .saveMetrics]⟩) := by
  refine ⟨?_, ?_, ?_, ?_⟩
  · intro e h
    simp only [Pipeline.run, h]
  · intro Xtr Xte ytr yte e h ht
    simp only [Pipeline.run, h, ht]
  · intro Xtr Xte ytr yte m pl1 e h ht he
    simp only [Pipeline.run, h, ht, he]
  · intro Xtr Xte ytr yte m pl1 mt pl2 h ht he
    simp only [Pipeline.run, h, ht, he, Pipeline.save_model, Pipeline.save_metrics]

/-- C6 witness: a concrete successful run reaches all six steps in order. -/
theorem C6_run_contract_witness :
    (Pipeline.run demoNormal demoTTS demoRF demoClsrep "t"
        ⟨"models", "logs", none, none⟩ (fun _ => none) ⟨0, 0⟩).trace
      = [.generate, .splitData, .train, .evaluate, .saveModel, .saveMetrics] := by
  have h := (C6_run_contract demoNormal demoTTS demoRF demoClsrep "t"
      ⟨"models", "logs", none, none⟩ (fun _ => none) ⟨0, 0⟩).2.2.2
    [[0], [0]] [] [0, 1] []
    (demoRF 100 10 42 [[0], [0]] [0, 1])
    ⟨"models", "logs", some (demoRF 100 10 42 [[0], [0]] [0, 1]), none⟩
    ⟨0, [], [[0, 0], [0, 0]], "t"⟩
    ⟨"models", "logs", some (demoRF 100 10 42 [[0], [0]] [0, 1]),
     some ⟨0, [], [[0, 0], [0, 0]], "t"⟩⟩
    rfl rfl
    (by
      simp [Pipeline.evaluate_model, Pipeline.accuracy_score,
        Pipeline.confusion_matrix, demoClsrep]
      rfl)
  rw [h]

/-- C9: saving a trained model and constructing a ModelInference on the
    returned path yields an instance holding exactly the saved artifact,
    whose predictions on any probe input are those of the original model. -/
theorem C9_save_load_round_trip (pl : Pipeline.MLPipeline) (fs : Pipeline.FS)
    (m : ModelArtifact) (fname : String) (hm : pl.model = some m) :
    Pipeline.ModelInference.init (Pipeline.save_model pl fs fname).2
        (Pipeline.save_model pl fs fname).1
      = .ok ⟨(Pipeline.save_model pl fs fname).1, some m⟩
    ∧ ∀ X, Pipeline.ModelInference.predict
          ⟨(Pipeline.save_model pl fs fname).1, some m⟩ X
        = Pipeline.predictWithModel m X := by
  constructor
  · simp [Pipeline.ModelInference.init, Pipeline.ModelInference.load_model,
      Pipeline.joblib_load, Pipeline.save_model, Pipeline.fsWrite, hm]
  · intro X
    rfl

/-- C9 witness: a concrete round trip of demoArtifact through the
    filesystem recovers exactly that artifact. -/
theorem C9_save_load_round_trip_witness :
    Pipeline.ModelInference.init
        (Pipeline.save_model ⟨"models", "logs", some demoArtifact, none⟩
          (fun _ => none) "model.pkl").2
        (Pipeline.save_model ⟨"models", "logs", some demoArtifact, none⟩
          (fun _ => none) "model.pkl").1
      = .ok ⟨(Pipeline.save_model ⟨"models", "logs", some demoArtifact, none⟩
          (fun _ => none) "model.pkl").1, some demoArtifact⟩ :=
  (C9_save_load_round_trip ⟨"models", "logs", some demoArtifact, none⟩
      (fun _ => none) demoArtifact "model.pkl" rfl).1

/-- C10 counterexample: a pickle file containing None — exactly what
    save_model writes when the pipeline model slot is still empty —
    constructs a ModelInference successfully whose model field is None, and
    its predict reaches the Model-not-loaded error branch, refuting both the
    claimed non-None field and the claimed unreachability. -/
theorem C10_none_pickle_constructs :
    Pipeline.ModelInference.init
        (Pipeline.fsWrite (fun _ => none) "models/model.pkl" (.pickle none))
        "models/model.pkl"
      = .ok ⟨"models/model.pkl", none⟩
    ∧ Pipeline.ModelInference.predict ⟨"models/model.pkl", none⟩ [[0]]
      = .error (.valueError "Model not loaded") :=
  ⟨rfl, rfl⟩

/-- C10 amended: the constructor loads eagerly and propagates any load
    failure; a successfully constructed instance holds exactly the
    deserialized file content in its model field; and whenever that content
    is an actual artifact rather than None, predict takes the model-present
    path, so the Model-not-loaded branch is unreachable. -/
theorem C10_init_contract (fs : Pipeline.FS) (path : String) :
    (∀ e, Pipeline.joblib_load fs path = .error e →
        Pipeline.ModelInference.init fs path = .error e)
    ∧ (∀ o, Pipeline.joblib_load fs path = .ok o →
        Pipeline.ModelInference.init fs path = .ok ⟨path, o⟩)
    ∧ (∀ m X, Pipeline.ModelInference.predict ⟨path, some m⟩ X
        = Pipeline.predictWithModel m X) := by
  refine ⟨?_, ?_, fun _ _ => rfl⟩
  · intro e h
    simp [Pipeline.ModelInference.init, Pipeline.ModelInference.load_model, h]
  · intro o h
    simp [Pipeline.ModelInference.init, Pipeline.ModelInference.load_model, h]

/-- C10 witness: constructing on a file holding a real artifact yields an
    instance whose model field is that artifact. -/
theorem C10_init_contract_witness :
    Pipeline.ModelInference.init
        (Pipeline.fsWrite (fun _ => none) "p" (.pickle (some demoArtifact))) "p"
      = .ok ⟨"p", some demoArtifact⟩ :=
  (C10_init_contract
      (Pipeline.fsWrite (fun _ => none) "p" (.pickle (some demoArtifact)))
      "p").2.1 (some demoArtifact) rfl
